import Mathlib

/-!
Shallow embedding of the payment-webhook reconciliation subsystem of the
Social Transformer repository:

* `api/stripe-webhook-simplified.ts` — the Stripe webhook handler
  (idempotency ledger, identity resolution, price/plan integrity check,
  subscription state reconciler, welcome-email side effect);
* `api/reconcile-subscription.ts` — the post-activation reconciliation
  endpoint;
* `api/utils/appwrite.ts` — `getUserIdByEmail` and `createUser`.

The Appwrite document store is modelled as in-memory lists of documents.
`listDocuments` with `Query.equal`/`Query.limit(1)` becomes `List.find?`;
without a limit it returns all matching documents (`List.filter`).
`createDocument` appends; `updateDocument` patches the document with the
given `$id`.  `ID.unique()` is modelled by a deterministic counter
(`nextId`).  JavaScript truthiness of the session fields (`!customerId`,
`!priceId`, `!amount`, `clientReferenceId`, `customer.email`,
`invoice.subscription`, `periodStart || ...`) is modelled explicitly.
Timestamps are naturals (milliseconds since epoch); `toISOString` is an
injective, order-preserving serialisation, so the raw numbers are kept.
The `subWrites` field of the store is a ghost log collecting every
subscription document as written (one entry per
`createDocument`/`updateDocument` on the `subscriptions` collection),
used to state per-write invariants.
-/

/-- An internal user identity (Appwrite `users` service entry). -/
structure UserRec where
  id : String
  email : String
deriving DecidableEq, Repr

/-- A document of the `processed_webhooks` collection (idempotency ledger). -/
structure ProcessedEvent where
  event_id : String
  event_type : String
  processed_at : Nat
deriving DecidableEq, Repr

/-- The JSON `details` blob attached to a `webhook_anomalies` document,
one constructor per anomaly kind written by the webhook handler. -/
inductive AnomalyDetails where
  | unknownPriceId (received_price_id : String)
      (expected_monthly expected_yearly : Option String)
      (session_id : String) (session_mode : String)
      (amount : Int) (timestamp : Nat)
  | priceMismatch (interval : String) (session_id : String)
      (price_id : String) (customer_id : String)
      (difference_cents : Int) (timestamp : Nat)
deriving DecidableEq, Repr

/-- A document of the `webhook_anomalies` collection. -/
structure Anomaly where
  event_id : String
  anomaly_type : String
  expected_value : Option Int
  received_value : Option Int
  details : AnomalyDetails
deriving DecidableEq, Repr

/-- A document of the `subscriptions` collection. -/
structure Subscription where
  docId : String
  user_id : String
  stripe_customer_id : String
  stripe_payment_intent_id : String
  stripe_subscription_id : String
  status : String
  is_active : Bool
  amount : Int
  currency : String
  interval : String
  stripe_price_id : String
  current_period_start : Nat
  current_period_end : Nat
  activated_at : Option Nat
deriving DecidableEq, Repr

/-- The business collections of the document store, plus the outbound
email log and the fresh-id counter.  `subWrites` is the ghost write log. -/
structure Store where
  subscriptions : List Subscription
  anomalies : List Anomaly
  users : List UserRec
  emails : List String
  subWrites : List Subscription
  nextId : Nat
deriving DecidableEq, Repr

/-- The whole persistent state: the idempotency ledger plus the store. -/
structure DB where
  processed : List ProcessedEvent
  store : Store
deriving DecidableEq, Repr

/-- Environment configuration read by the webhook handler
(`STRIPE_MONTHLY_PRICE_ID`, `STRIPE_YEARLY_PRICE_ID`). -/
structure Env where
  monthlyPriceId : Option String
  yearlyPriceId : Option String
deriving DecidableEq, Repr

/-- External collaborators: `stripe.customers.retrieve(id).email`, whether
`users.create` succeeds, and whether `RESEND_API_KEY` is configured. -/
structure World where
  customerEmail : String → Option String
  createUserOk : Bool
  resendApiKey : Bool

/-- An Appwrite storage error as observed by the webhook handler's catch
block (`e?.code`, `e?.type`). -/
structure AppwriteError where
  code : Nat
  etype : String
deriving DecidableEq, Repr

/-- `session.line_items?.data?.[0]?.price?.id` is flattened into
`line_item_price_id`. -/
structure CheckoutSession where
  id : String
  customer : Option String
  line_item_price_id : Option String
  client_reference_id : Option String
  amount_total : Option Int
  currency : Option String
  payment_intent : Option String
  subscription : Option String
  mode : String
deriving DecidableEq, Repr

/-- A Stripe subscription object as read by the update/delete handlers;
`items.data[0].current_period_start/end` are flattened (seconds). -/
structure StripeSubscription where
  id : String
  status : String
  item_current_period_start : Option Nat
  item_current_period_end : Option Nat
deriving DecidableEq, Repr

/-- The event payloads the dispatcher distinguishes. -/
inductive EventData where
  | checkoutCompleted (session : CheckoutSession)
  | subscriptionUpdated (subscription : StripeSubscription)
  | subscriptionDeleted (subscription : StripeSubscription)
  | invoicePaid (invoice_subscription : Option String)
  | invoicePaymentFailed (invoice_subscription : Option String)
  | other (t : String)
deriving DecidableEq, Repr

/-- A verified Stripe event (post signature check). -/
structure Event where
  id : String
  data : EventData
deriving DecidableEq, Repr

/-- `event.type` as a string, as recorded in the idempotency ledger. -/
def eventType : EventData → String
  | .checkoutCompleted _ => "checkout.session.completed"
  | .subscriptionUpdated _ => "customer.subscription.updated"
  | .subscriptionDeleted _ => "customer.subscription.deleted"
  | .invoicePaid _ => "invoice.paid"
  | .invoicePaymentFailed _ => "invoice.payment_failed"
  | .other t => t

/-- The webhook responses relevant to the embedded part of the handler:
`received` is `200 {received:true}`, `duplicate` is
`200 {received:true, duplicate:true}`, `processingError` is the `500`
returned when a type-specific handler throws. -/
inductive WebhookResp where
  | received
  | duplicate
  | processingError
deriving DecidableEq, Repr

/-- JavaScript truthiness of a nullable string (`null`/`undefined` and the
empty string are falsy). -/
def optTruthy : Option String → Bool
  | none => false
  | some s => !(s == "")

/-- JavaScript truthiness of a nullable number (`null` and `0` are falsy). -/
def amtTruthy : Option Int → Bool
  | none => false
  | some a => !(a == 0)

/-- JavaScript `x || d` for a nullable number (`0` falls back to `d`). -/
def jsOrNat : Option Nat → Nat → Nat
  | none, d => d
  | some n, d => if n == 0 then d else n

/-- `getUserIdByEmail` from `api/utils/appwrite.ts`: list users filtered by
email, return the first id if any. -/
def getUserIdByEmail (users : List UserRec) (email : String) : Option String :=
  match users.find? (fun u => u.email == email) with
  | some u => some u.id
  | none => none

/-- `ID.unique()` modelled as a deterministic fresh id from the counter. -/
def uniqueId (nextId : Nat) : String := "uid" ++ toString nextId

/-- `createUser` from `api/utils/appwrite.ts`: create a user with a fresh
id keyed by the email; `none` models the caught creation failure. -/
def createUser (ok : Bool) (users : List UserRec) (nextId : Nat)
    (email : String) : Option (String × List UserRec × Nat) :=
  if ok then some (uniqueId nextId, users ++ [⟨uniqueId nextId, email⟩], nextId + 1)
  else none

/-- Identity resolution of the checkout handler (lines 126-146):
`let userId = clientReferenceId; if (!userId && customer.email) ...`.
Returns the resolved user id (if any) with the possibly-extended user list
and id counter. -/
def resolveUserId (w : World) (users : List UserRec) (nextId : Nat)
    (clientReferenceId : Option String) (email : Option String) :
    Option String × List UserRec × Nat :=
  if !optTruthy clientReferenceId && optTruthy email then
    match getUserIdByEmail users (email.getD "") with
    | some existingUserId => (some existingUserId, users, nextId)
    | none =>
      match createUser w.createUserOk users nextId (email.getD "") with
      | some (uid, users2, n2) => (some uid, users2, n2)
      | none => (none, users, nextId)
  else (clientReferenceId, users, nextId)

/-- The `CORRECT_PRICES` table of the checkout handler. -/
def CORRECT_PRICES (interval : String) : Int :=
  if interval == "monthly" then 2900 else 29900

/-- The `switch (priceId)` of the checkout handler: resolved interval plus
whether the default (unknown price id) arm was taken. -/
def determineInterval (env : Env) (priceId : String) (mode : String) :
    String × Bool :=
  if env.monthlyPriceId == some priceId then ("monthly", false)
  else if env.yearlyPriceId == some priceId then ("yearly", false)
  else (if mode == "subscription" then "monthly" else "yearly", true)

/-- `sendWelcomeEmail`: fire-and-forget; records the outbound email only
when the API key is configured and the address is non-empty. -/
def sendWelcomeEmail (w : World) (st : Store) (email : String) : Store :=
  if w.resendApiKey && !(email == "") then {st with emails := st.emails ++ [email]}
  else st

/-- The checkout handler from interval determination onward (lines
148-253): anomaly logging, canonical-amount validation, upsert of the
subscription document, welcome email. -/
def completeCheckout (env : Env) (w : World) (now : Nat) (st : Store)
    (eid : String) (s : CheckoutSession) (userId cid pid : String)
    (amt : Int) (email : Option String) : Store :=
  let iv := determineInterval env pid s.mode
  let interval := iv.1
  let st2 := if iv.2 then
      {st with anomalies := st.anomalies ++
        [⟨eid, "unknown_price_id", none, none,
          .unknownPriceId pid env.monthlyPriceId env.yearlyPriceId
            s.id s.mode amt now⟩]}
    else st
  let expectedAmount := CORRECT_PRICES interval
  let st3 := if amt == expectedAmount then st2 else
      {st2 with anomalies := st2.anomalies ++
        [⟨eid, "price_mismatch", some expectedAmount, some amt,
          .priceMismatch interval s.id pid cid (amt - expectedAmount) now⟩]}
  let validatedAmount := expectedAmount
  let subData : String → Option Nat → Subscription := fun docId act =>
    ⟨docId, userId, cid, s.payment_intent.getD "", s.subscription.getD "",
      "active", true, validatedAmount, s.currency.getD "eur", interval, pid,
      now,
      (if interval == "yearly" then now + 365 * 24 * 60 * 60 * 1000
       else now + 30 * 24 * 60 * 60 * 1000), act⟩
  let st4 :=
    match st3.subscriptions.find? (fun d => d.user_id == userId) with
    | some d0 =>
      let nd := subData d0.docId d0.activated_at
      {st3 with
        subscriptions := st3.subscriptions.map
          (fun d => if d.docId == d0.docId then nd else d),
        subWrites := st3.subWrites ++ [nd]}
    | none =>
      let nd := subData (uniqueId st3.nextId) none
      {st3 with
        nextId := st3.nextId + 1,
        subscriptions := st3.subscriptions ++ [nd],
        subWrites := st3.subWrites ++ [nd]}
  sendWelcomeEmail w st4 (email.getD "")

/-- The `checkout.session.completed` branch (lines 110-254). -/
def handleCheckoutSessionCompleted (env : Env) (w : World) (now : Nat)
    (st : Store) (eid : String) (s : CheckoutSession) : Store :=
  if !(optTruthy s.customer && optTruthy s.line_item_price_id
        && amtTruthy s.amount_total) then st
  else
    let cid := s.customer.getD ""
    let pid := s.line_item_price_id.getD ""
    let amt := s.amount_total.getD 0
    let email := w.customerEmail cid
    let r := resolveUserId w st.users st.nextId s.client_reference_id email
    let st1 := {st with users := r.2.1, nextId := r.2.2}
    match r.1 with
    | some userId =>
      if userId == "" then st1
      else completeCheckout env w now st1 eid s userId cid pid amt email
    | none => st1

/-- The `customer.subscription.updated` branch (lines 256-282). -/
def handleSubscriptionUpdated (now : Nat) (st : Store)
    (sub : StripeSubscription) : Store :=
  let periodStart := jsOrNat sub.item_current_period_start (now / 1000)
  let periodEnd := jsOrNat sub.item_current_period_end
    ((now + 30 * 24 * 60 * 60 * 1000) / 1000)
  match st.subscriptions.find? (fun d => d.stripe_subscription_id == sub.id) with
  | some d0 =>
    let nd := {d0 with
      status := sub.status,
      is_active := sub.status == "active",
      current_period_start := periodStart * 1000,
      current_period_end := periodEnd * 1000}
    {st with
      subscriptions := st.subscriptions.map
        (fun d => if d.docId == d0.docId then nd else d),
      subWrites := st.subWrites ++ [nd]}
  | none => st

/-- The `customer.subscription.deleted` branch (lines 284-303). -/
def handleSubscriptionDeleted (st : Store) (sub : StripeSubscription) : Store :=
  match st.subscriptions.find? (fun d => d.stripe_subscription_id == sub.id) with
  | some d0 =>
    let nd := {d0 with status := "canceled", is_active := false}
    {st with
      subscriptions := st.subscriptions.map
        (fun d => if d.docId == d0.docId then nd else d),
      subWrites := st.subWrites ++ [nd]}
  | none => st

/-- The `invoice.paid` branch (lines 305-324). -/
def handleInvoicePaid (st : Store) (invoiceSubscription : Option String) :
    Store :=
  if optTruthy invoiceSubscription then
    match st.subscriptions.find?
        (fun d => d.stripe_subscription_id == invoiceSubscription.getD "") with
    | some d0 =>
      let nd := {d0 with status := "active", is_active := true}
      {st with
        subscriptions := st.subscriptions.map
          (fun d => if d.docId == d0.docId then nd else d),
        subWrites := st.subWrites ++ [nd]}
    | none => st
  else st

/-- The `switch (event.type)` dispatcher (lines 108-338); unhandled types
and `invoice.payment_failed` only log. -/
def dispatchEvent (env : Env) (w : World) (now : Nat) (st : Store)
    (ev : Event) : Store :=
  match ev.data with
  | .checkoutCompleted s => handleCheckoutSessionCompleted env w now st ev.id s
  | .subscriptionUpdated sub => handleSubscriptionUpdated now st sub
  | .subscriptionDeleted sub => handleSubscriptionDeleted st sub
  | .invoicePaid os => handleInvoicePaid st os
  | .invoicePaymentFailed _ => st
  | .other _ => st

/-- The idempotency-ledger insert (lines 83-93): insert-if-absent against
the unique index on `event_id`; a present record raises the Appwrite
conflict error; `fault` injects any other storage failure of this write. -/
def recordProcessedEvent (fault : Option AppwriteError) (now : Nat)
    (processed : List ProcessedEvent) (eid etype : String) :
    Except AppwriteError (List ProcessedEvent) :=
  if processed.any (fun r => r.event_id == eid) then
    .error ⟨409, "document_already_exists"⟩
  else
    match fault with
    | some e => .error e
    | none => .ok (processed ++ [⟨eid, etype, now⟩])

/-- The webhook handler from `api/stripe-webhook-simplified.ts` (post
signature verification): record the event id, short-circuit on the
duplicate signal, fail open on other ledger-write errors, then dispatch. -/
def handler (env : Env) (w : World) (fault : Option AppwriteError)
    (now : Nat) (db : DB) (ev : Event) : DB × WebhookResp :=
  match recordProcessedEvent fault now db.processed ev.id (eventType ev.data) with
  | .error e =>
    if e.code == 409 || e.etype == "document_already_exists" then
      (db, .duplicate)
    else
      (⟨db.processed, dispatchEvent env w now db.store ev⟩, .received)
  | .ok processed2 =>
    (⟨processed2, dispatchEvent env w now db.store ev⟩, .received)

/-- The patch `{is_active: true, activated_at: now}` applied by the
reconciliation endpoint to a pending subscription. -/
def promoteSub (now : Nat) (sub : Subscription) : Subscription :=
  {sub with is_active := true, activated_at := some now}

/-- One iteration of the reconciliation endpoint's activation loop
(lines 48-58 of `api/reconcile-subscription.ts`). -/
def reconcileStep (now : Nat) (acc : Store × Nat) (sub : Subscription) :
    Store × Nat :=
  let nd := promoteSub now sub
  ({acc.1 with
      subscriptions := acc.1.subscriptions.map
        (fun d => if d.docId == sub.docId then nd else d),
      subWrites := acc.1.subWrites ++ [nd]},
   acc.2 + 1)

/-- The query predicate of the reconciliation endpoint:
`user_id = userId AND is_active = false AND status = 'paid'`. -/
def pendingFor (userId : String) (d : Subscription) : Bool :=
  d.user_id == userId && d.is_active == false && d.status == "paid"

/-- The authenticated success path of `api/reconcile-subscription.ts`:
scan the caller's pending subscriptions and activate each, returning the
store and the `activated` count of the response. -/
def reconcileHandler (now : Nat) (st : Store) (userId : String) :
    Store × Nat :=
  let pendingSubs := st.subscriptions.filter (pendingFor userId)
  pendingSubs.foldl (reconcileStep now) (st, 0)

/-- The status-consistency invariant of the spec: a written subscription
document has `is_active` exactly when its `status` is `active`. -/
def statusConsistent (d : Subscription) : Prop :=
  d.is_active = true ↔ d.status = "active"

/-! ## Concrete fixtures used by witnesses and counterexamples -/

/-- A configured environment with distinct monthly and yearly price ids. -/
def envFix : Env := ⟨some "price_m", some "price_y"⟩

/-- A benign external world: every customer has the same email, user
creation succeeds, the email API key is configured. -/
def wFix : World := ⟨fun _ => some "a@example.com", true, true⟩

/-- The empty store. -/
def stEmpty : Store := ⟨[], [], [], [], [], 0⟩

/-- The empty database. -/
def dbEmpty : DB := ⟨[], stEmpty⟩

/-- A checkout session carrying the configured monthly price and the
canonical monthly amount, with a client reference. -/
def sessFix : CheckoutSession :=
  ⟨"cs_1", some "cus_1", some "price_m", some "user_1", some 2900,
   some "eur", some "pi_1", some "sub_1", "subscription"⟩

/-- A subscription document in the transitional `paid`/inactive state that
the reconciliation endpoint promotes. -/
def subPaidFix : Subscription :=
  ⟨"doc1", "u1", "cus", "pi", "subX", "paid", false, 2900, "eur",
   "monthly", "price_m", 0, 0, none⟩

/-- A store holding only `subPaidFix`. -/
def stPaidFix : Store := ⟨[subPaidFix], [], [], [], [], 0⟩

/-- An active subscription document attached to Stripe subscription
`subX`. -/
def subActiveFix : Subscription :=
  ⟨"doc1", "u1", "cus", "pi", "subX", "active", true, 2900, "eur",
   "monthly", "price_m", 0, 0, none⟩

/-- A store holding only `subActiveFix`. -/
def stActiveFix : Store := ⟨[subActiveFix], [], [], [], [], 0⟩

/-- A concrete cancellation event for Stripe subscription `subX`. -/
def evDelFix : Event :=
  ⟨"evt_d", .subscriptionDeleted ⟨"subX", "canceled", none, none⟩⟩

/-- A world whose customer lookup yields no email address. -/
def wNoEmail : World := ⟨fun _ => none, true, true⟩

/-- A checkout session with no client reference. -/
def sessNoRefFix : CheckoutSession :=
  ⟨"cs_4", some "cus_1", some "price_m", none, some 2900, some "eur",
   none, none, "subscription"⟩

/-- A checkout session carrying the configured yearly price but the
monthly canonical amount (a price mismatch). -/
def sessMismatchFix : CheckoutSession :=
  ⟨"cs_2", some "cus_1", some "price_y", some "user_1", some 2900,
   some "eur", some "pi_1", some "sub_1", "subscription"⟩

/-- A checkout session whose price id matches neither configured price. -/
def sessUnknownFix : CheckoutSession :=
  ⟨"cs_3", some "cus_1", some "price_x", some "user_1", some 5000,
   some "eur", some "pi_1", some "sub_1", "subscription"⟩

/-- The cancellation patch `{status: 'canceled', is_active: false}`. -/
def cancelSub (d : Subscription) : Subscription :=
  {d with status := "canceled", is_active := false}

/-- The Stripe subscription object of the concrete cancellation event. -/
def stripeSubFix : StripeSubscription := ⟨"subX", "canceled", none, none⟩

/-! ## Helper lemmas -/

theorem sendWelcomeEmail_subscriptions (w : World) (st : Store) (email : String) :
    (sendWelcomeEmail w st email).subscriptions = st.subscriptions := by
  unfold sendWelcomeEmail; split <;> rfl

theorem sendWelcomeEmail_anomalies (w : World) (st : Store) (email : String) :
    (sendWelcomeEmail w st email).anomalies = st.anomalies := by
  unfold sendWelcomeEmail; split <;> rfl

theorem sendWelcomeEmail_subWrites (w : World) (st : Store) (email : String) :
    (sendWelcomeEmail w st email).subWrites = st.subWrites := by
  unfold sendWelcomeEmail; split <;> rfl

theorem sendWelcomeEmail_users (w : World) (st : Store) (email : String) :
    (sendWelcomeEmail w st email).users = st.users := by
  unfold sendWelcomeEmail; split <;> rfl

/-- On a fresh event id with no injected ledger fault, the webhook handler
records the event and dispatches it. -/
theorem handler_ok (env : Env) (w : World) (now : Nat) (db : DB) (ev : Event)
    (hfresh : db.processed.any (fun r => r.event_id == ev.id) = false) :
    handler env w none now db ev =
      (⟨db.processed ++ [⟨ev.id, eventType ev.data, now⟩],
        dispatchEvent env w now db.store ev⟩, .received) := by
  simp [handler, recordProcessedEvent, hfresh]

/-- Full characterisation of `completeCheckout`: exactly one subscription
document is written (update-in-place when a document with this `user_id`
exists, append otherwise), its persisted amount is the canonical price for
the resolved interval, and the anomaly log grows by the unknown-price
and/or price-mismatch records. -/
theorem completeCheckout_spec (env : Env) (w : World) (now : Nat) (st : Store)
    (eid : String) (s : CheckoutSession) (userId cid pid : String)
    (amt : Int) (email : Option String) :
    ∃ nd : Subscription,
      (completeCheckout env w now st eid s userId cid pid amt email).subWrites
          = st.subWrites ++ [nd] ∧
      (completeCheckout env w now st eid s userId cid pid amt email).users
          = st.users ∧
      (completeCheckout env w now st eid s userId cid pid amt email).anomalies
          = st.anomalies
            ++ (if (determineInterval env pid s.mode).2 then
                  [⟨eid, "unknown_price_id", none, none,
                    .unknownPriceId pid env.monthlyPriceId env.yearlyPriceId
                      s.id s.mode amt now⟩] else [])
            ++ (if amt == CORRECT_PRICES (determineInterval env pid s.mode).1
                then []
                else
                  [⟨eid, "price_mismatch",
                    some (CORRECT_PRICES (determineInterval env pid s.mode).1),
                    some amt,
                    .priceMismatch (determineInterval env pid s.mode).1 s.id pid
                      cid
                      (amt - CORRECT_PRICES (determineInterval env pid s.mode).1)
                      now⟩]) ∧
      nd.user_id = userId ∧
      nd.stripe_customer_id = cid ∧
      nd.status = "active" ∧
      nd.is_active = true ∧
      nd.amount = CORRECT_PRICES (determineInterval env pid s.mode).1 ∧
      nd.interval = (determineInterval env pid s.mode).1 ∧
      nd.stripe_price_id = pid ∧
      nd.current_period_start = now ∧
      nd.current_period_end =
        (if (determineInterval env pid s.mode).1 == "yearly"
          then now + 365 * 24 * 60 * 60 * 1000
          else now + 30 * 24 * 60 * 60 * 1000) ∧
      (∀ d0, st.subscriptions.find? (fun d => d.user_id == userId) = some d0 →
        nd.docId = d0.docId ∧
        (completeCheckout env w now st eid s userId cid pid amt
            email).subscriptions
          = st.subscriptions.map
              (fun d => if d.docId == d0.docId then nd else d)) ∧
      (st.subscriptions.find? (fun d => d.user_id == userId) = none →
        (completeCheckout env w now st eid s userId cid pid amt
            email).subscriptions
          = st.subscriptions ++ [nd]) := by
  rcases hiv : determineInterval env pid s.mode with ⟨interval, unknown⟩
  cases hamt : amt == CORRECT_PRICES interval <;>
  cases hfind : st.subscriptions.find? (fun d => d.user_id == userId) <;>
  cases unknown <;>
    simp [completeCheckout, hiv, hamt, hfind, sendWelcomeEmail_subscriptions,
      sendWelcomeEmail_anomalies, sendWelcomeEmail_subWrites,
      sendWelcomeEmail_users]

/-- When the session data is present and a user id resolves, the checkout
branch reduces to `completeCheckout` on the store with the resolver's
user-list and counter updates applied. -/
theorem checkout_reaches (env : Env) (w : World) (now : Nat) (st : Store)
    (eid : String) (s : CheckoutSession) (uid : String)
    (users2 : List UserRec) (nid2 : Nat)
    (hdata : (optTruthy s.customer && optTruthy s.line_item_price_id
        && amtTruthy s.amount_total) = true)
    (hres : resolveUserId w st.users st.nextId s.client_reference_id
        (w.customerEmail (s.customer.getD "")) = (some uid, users2, nid2))
    (huid : uid ≠ "") :
    handleCheckoutSessionCompleted env w now st eid s =
      completeCheckout env w now {st with users := users2, nextId := nid2}
        eid s uid (s.customer.getD "") (s.line_item_price_id.getD "")
        (s.amount_total.getD 0) (w.customerEmail (s.customer.getD "")) := by
  simp [handleCheckoutSessionCompleted, hdata, hres, huid]

/-- C9: if the idempotency-ledger write fails with any storage error other
than the duplicate signal (`code 409` / `document_already_exists`), the
request is not aborted: the handler responds `received` and the
type-specific processing produces exactly the store a fault-free run would
produce, while the ledger record itself is missing. -/
theorem C9_fail_open_on_ledger_error (env : Env) (w : World)
    (e : AppwriteError) (now : Nat) (db : DB) (ev : Event)
    (hcode : e.code ≠ 409) (htype : e.etype ≠ "document_already_exists")
    (hfresh : db.processed.any (fun r => r.event_id == ev.id) = false) :
    (handler env w (some e) now db ev).2 = .received ∧
    (handler env w (some e) now db ev).1.store =
      (handler env w none now db ev).1.store ∧
    (handler env w (some e) now db ev).1.processed = db.processed ∧
    (handler env w none now db ev).1.processed =
      db.processed ++ [⟨ev.id, eventType ev.data, now⟩] := by
  simp [handler, recordProcessedEvent, hfresh, hcode, htype]

/-- Witness for C9 at a concrete fault (`code 500`, type `general_error`)
on a concrete checkout delivery. -/
theorem C9_fail_open_on_ledger_error_witness :
    (handler envFix wFix (some ⟨500, "general_error"⟩) 100 dbEmpty
        ⟨"evt_1", .checkoutCompleted sessFix⟩).2 = .received ∧
    (handler envFix wFix (some ⟨500, "general_error"⟩) 100 dbEmpty
        ⟨"evt_1", .checkoutCompleted sessFix⟩).1.store =
      (handler envFix wFix none 100 dbEmpty
        ⟨"evt_1", .checkoutCompleted sessFix⟩).1.store ∧
    (handler envFix wFix (some ⟨500, "general_error"⟩) 100 dbEmpty
        ⟨"evt_1", .checkoutCompleted sessFix⟩).1.processed = dbEmpty.processed ∧
    (handler envFix wFix none 100 dbEmpty
        ⟨"evt_1", .checkoutCompleted sessFix⟩).1.processed =
      dbEmpty.processed ++ [⟨"evt_1", "checkout.session.completed", 100⟩] :=
  C9_fail_open_on_ledger_error envFix wFix ⟨500, "general_error"⟩ 100 dbEmpty
    ⟨"evt_1", .checkoutCompleted sessFix⟩ (by decide) (by decide) (by decide)

/-- C3: delivering the same event id twice (fresh on first delivery, no
ledger fault) leaves exactly one `ProcessedEventRecord` for that id, and
the second delivery changes nothing at all and responds
`200 {received:true, duplicate:true}`. -/
theorem C3_second_delivery_is_pure_duplicate (env env2 : Env) (w w2 : World)
    (fault2 : Option AppwriteError) (now now2 : Nat) (db : DB) (ev ev2 : Event)
    (hfresh : db.processed.any (fun r => r.event_id == ev.id) = false)
    (hid : ev2.id = ev.id) :
    ((handler env w none now db ev).1.processed.filter
        (fun r => r.event_id == ev.id)).length = 1 ∧
    handler env2 w2 fault2 now2 (handler env w none now db ev).1 ev2 =
      ((handler env w none now db ev).1, .duplicate) := by
  have h1 : (handler env w none now db ev).1.processed
      = db.processed ++ [⟨ev.id, eventType ev.data, now⟩] := by
    rw [handler_ok env w now db ev hfresh]
  have hnil : db.processed.filter (fun r => r.event_id == ev.id) = [] := by
    rw [List.filter_eq_nil_iff]
    intro a ha
    have := (List.any_eq_false).1 hfresh a ha
    simpa using this
  constructor
  · rw [h1, List.filter_append, hnil]
    simp
  · rw [handler_ok env w now db ev hfresh]
    simp [handler, recordProcessedEvent, hid, List.any_append]

/-- Witness for C3: a concrete checkout event delivered twice. -/
theorem C3_second_delivery_is_pure_duplicate_witness :
    ((handler envFix wFix none 100 dbEmpty
        ⟨"evt_1", .checkoutCompleted sessFix⟩).1.processed.filter
        (fun r => r.event_id == "evt_1")).length = 1 ∧
    handler envFix wFix none 200
        (handler envFix wFix none 100 dbEmpty
          ⟨"evt_1", .checkoutCompleted sessFix⟩).1
        ⟨"evt_1", .invoicePaid (some "subX")⟩ =
      ((handler envFix wFix none 100 dbEmpty
          ⟨"evt_1", .checkoutCompleted sessFix⟩).1, .duplicate) :=
  C3_second_delivery_is_pure_duplicate envFix envFix wFix wFix none 100 200
    dbEmpty ⟨"evt_1", .checkoutCompleted sessFix⟩
    ⟨"evt_1", .invoicePaid (some "subX")⟩ (by decide) rfl

/-- C10: a checkout event whose customer id, line-item price id, or
amount is missing or zero is acknowledged `200 {received:true}` with the
event id recorded in the ledger but with the store untouched (no identity
lookup or creation, no subscription or anomaly write); a redelivery of the
same event id is answered as a duplicate, so the dropped effect stays
dropped. -/
theorem C10_missing_session_data_drops_effect_permanently (env env2 : Env)
    (w w2 : World) (fault2 : Option AppwriteError) (now now2 : Nat) (db : DB)
    (s : CheckoutSession) (eid : String) (ev2 : Event)
    (hmiss : (optTruthy s.customer && optTruthy s.line_item_price_id
        && amtTruthy s.amount_total) = false)
    (hfresh : db.processed.any (fun r => r.event_id == eid) = false)
    (hid : ev2.id = eid) :
    handler env w none now db ⟨eid, .checkoutCompleted s⟩ =
      (⟨db.processed ++ [⟨eid, "checkout.session.completed", now⟩], db.store⟩,
        .received) ∧
    handler env2 w2 fault2 now2
        (handler env w none now db ⟨eid, .checkoutCompleted s⟩).1 ev2 =
      ((handler env w none now db ⟨eid, .checkoutCompleted s⟩).1,
        .duplicate) := by
  have h1 : handler env w none now db ⟨eid, .checkoutCompleted s⟩ =
      (⟨db.processed ++ [⟨eid, "checkout.session.completed", now⟩], db.store⟩,
        .received) := by
    rw [handler_ok env w now db ⟨eid, .checkoutCompleted s⟩ hfresh]
    simp [dispatchEvent, eventType, handleCheckoutSessionCompleted, hmiss]
  refine ⟨h1, ?_⟩
  rw [h1]
  simp [handler, recordProcessedEvent, hid, List.any_append]

/-- Witness for C10: a session with amount 0; the second delivery uses a
different event type under the same id. -/
theorem C10_missing_session_data_drops_effect_permanently_witness :
    handler envFix wFix none 100 dbEmpty
        ⟨"evt_1", .checkoutCompleted
          ⟨"cs_0", some "cus_1", some "price_m", some "user_1", some 0,
            some "eur", none, none, "subscription"⟩⟩ =
      (⟨[⟨"evt_1", "checkout.session.completed", 100⟩], dbEmpty.store⟩,
        .received) ∧
    handler envFix wFix none 200
        (handler envFix wFix none 100 dbEmpty
          ⟨"evt_1", .checkoutCompleted
            ⟨"cs_0", some "cus_1", some "price_m", some "user_1", some 0,
              some "eur", none, none, "subscription"⟩⟩).1
        ⟨"evt_1", .checkoutCompleted sessFix⟩ =
      ((handler envFix wFix none 100 dbEmpty
          ⟨"evt_1", .checkoutCompleted
            ⟨"cs_0", some "cus_1", some "price_m", some "user_1", some 0,
              some "eur", none, none, "subscription"⟩⟩).1, .duplicate) := by
  have h := C10_missing_session_data_drops_effect_permanently envFix envFix
    wFix wFix none 100 200 dbEmpty
    ⟨"cs_0", some "cus_1", some "price_m", some "user_1", some 0,
      some "eur", none, none, "subscription"⟩
    "evt_1" ⟨"evt_1", .checkoutCompleted sessFix⟩ (by decide) (by decide) rfl
  simpa using h

/-- The ghost write log of the reconciliation loop: one promoted copy of
each pending document, in order. -/
theorem reconcile_foldl_subWrites (now : Nat) (l : List Subscription)
    (acc : Store × Nat) :
    (l.foldl (reconcileStep now) acc).1.subWrites
      = acc.1.subWrites ++ l.map (promoteSub now) := by
  induction l generalizing acc with
  | nil => simp
  | cons hh t ih => simp [reconcileStep, ih, List.append_assoc]

/-- The `activated` counter of the reconciliation loop counts the pending
documents. -/
theorem reconcile_foldl_count (now : Nat) (l : List Subscription)
    (acc : Store × Nat) :
    (l.foldl (reconcileStep now) acc).2 = acc.2 + l.length := by
  induction l generalizing acc with
  | nil => simp
  | cons hh t ih =>
    simp only [List.foldl_cons, ih, reconcileStep, List.length_cons]
    omega

/-- Every subscription document written by the event dispatcher satisfies
the status-consistency invariant. -/
theorem dispatch_subWrites_consistent (env : Env) (w : World) (now : Nat)
    (st : Store) (ev : Event) (h : st.subWrites = []) :
    ∀ d ∈ (dispatchEvent env w now st ev).subWrites, statusConsistent d := by
  intro d hd
  rcases ev with ⟨eid, evd⟩
  cases evd with
  | checkoutCompleted s =>
    simp only [dispatchEvent] at hd
    rw [handleCheckoutSessionCompleted] at hd
    by_cases hdata : (optTruthy s.customer && optTruthy s.line_item_price_id
        && amtTruthy s.amount_total) = true
    · simp only [hdata, Bool.not_true, Bool.false_eq_true, if_false] at hd
      rcases hres : resolveUserId w st.users st.nextId s.client_reference_id
          (w.customerEmail (s.customer.getD "")) with ⟨uopt, users2, nid2⟩
      rw [hres] at hd
      cases uopt with
      | none => simp [h] at hd
      | some uid =>
        by_cases huid : uid = ""
        · simp [huid, h] at hd
        · simp only [huid, if_neg, beq_iff_eq, if_false] at hd
          rcases completeCheckout_spec env w now
              {st with users := users2, nextId := nid2} eid s uid
              (s.customer.getD "") (s.line_item_price_id.getD "")
              (s.amount_total.getD 0)
              (w.customerEmail (s.customer.getD "")) with
            ⟨nd, hw, _, _, _, _, hstat, hact, _⟩
          rw [hw] at hd
          simp only [h] at hd
          simp only [List.nil_append, List.mem_singleton] at hd
          subst hd
          exact ⟨fun _ => hstat ▸ rfl, fun _ => hact⟩
    · simp only [Bool.not_eq_true] at hdata
      simp [hdata, h] at hd
  | subscriptionUpdated sub =>
    simp only [dispatchEvent, handleSubscriptionUpdated] at hd
    cases hfind : st.subscriptions.find?
        (fun d => d.stripe_subscription_id == sub.id) with
    | none => simp [hfind, h] at hd
    | some d0 =>
      simp only [hfind, h, List.nil_append, List.mem_singleton] at hd
      subst hd
      simp [statusConsistent]
  | subscriptionDeleted sub =>
    simp only [dispatchEvent, handleSubscriptionDeleted] at hd
    cases hfind : st.subscriptions.find?
        (fun d => d.stripe_subscription_id == sub.id) with
    | none => simp [hfind, h] at hd
    | some d0 =>
      simp only [hfind, h, List.nil_append, List.mem_singleton] at hd
      subst hd
      simp [statusConsistent]
  | invoicePaid os =>
    simp only [dispatchEvent, handleInvoicePaid] at hd
    by_cases htr : optTruthy os = true
    · simp only [htr, if_true] at hd
      cases hfind : st.subscriptions.find?
          (fun d => d.stripe_subscription_id == os.getD "") with
      | none => simp [hfind, h] at hd
      | some d0 =>
        simp only [hfind, h, List.nil_append, List.mem_singleton] at hd
        subst hd
        simp [statusConsistent]
    · simp only [Bool.not_eq_true] at htr
      simp [htr, h] at hd
  | invoicePaymentFailed os => simp [dispatchEvent, h] at hd
  | other t => simp [dispatchEvent, h] at hd

/-- C1 (amended): for every Subscription write performed by the webhook
handlers (checkout-completed, subscription-updated, subscription-deleted,
invoice-paid), the written document satisfies `is_active = true` iff
`status = 'active'`; the post-activation reconciliation endpoint does not
preserve this invariant — each of its writes sets `is_active = true` while
leaving `status = 'paid'`. -/
theorem C1_webhook_writes_status_consistent :
    (∀ (env : Env) (w : World) (fault : Option AppwriteError) (now : Nat)
        (db : DB) (ev : Event), db.store.subWrites = [] →
      ∀ d ∈ (handler env w fault now db ev).1.store.subWrites,
        statusConsistent d) ∧
    (∀ (now : Nat) (st : Store) (userId : String), st.subWrites = [] →
      ∀ d ∈ (reconcileHandler now st userId).1.subWrites,
        d.is_active = true ∧ d.status = "paid") := by
  constructor
  · intro env w fault now db ev h d hd
    cases hrec : recordProcessedEvent fault now db.processed ev.id
        (eventType ev.data) with
    | error e =>
      by_cases hdup : (e.code == 409 || e.etype == "document_already_exists")
          = true
      · simp [handler, hrec, hdup, h] at hd
      · simp only [handler, hrec, hdup, Bool.false_eq_true, if_false] at hd
        exact dispatch_subWrites_consistent env w now db.store ev h d hd
    | ok p2 =>
      simp only [handler, hrec] at hd
      exact dispatch_subWrites_consistent env w now db.store ev h d hd
  · intro now st userId h d hd
    unfold reconcileHandler at hd
    rw [reconcile_foldl_subWrites, h, List.nil_append] at hd
    rcases List.mem_map.1 hd with ⟨sub, hsub, rfl⟩
    have hp : pendingFor userId sub = true := List.of_mem_filter hsub
    unfold pendingFor at hp
    simp only [Bool.and_eq_true, beq_iff_eq] at hp
    exact ⟨rfl, hp.2⟩


/-- Witness for C1 as amended: a concrete webhook delivery (a cancellation
event matched against an active subscription) and a concrete run of the
reconciliation endpoint over a `paid`/inactive subscription. -/
theorem C1_webhook_writes_status_consistent_witness :
    (∀ d ∈ (handler envFix wFix none 100 ⟨[], stActiveFix⟩
        evDelFix).1.store.subWrites, statusConsistent d) ∧
    (∀ d ∈ (reconcileHandler 5 stPaidFix "u1").1.subWrites,
        d.is_active = true ∧ d.status = "paid") :=
  ⟨C1_webhook_writes_status_consistent.1 envFix wFix none 100 ⟨[], stActiveFix⟩
      evDelFix rfl,
    C1_webhook_writes_status_consistent.2 5 stPaidFix "u1" rfl⟩

/-- Counterexample to C1 as stated: the reconciliation endpoint, run by
user `u1` over a store holding one `paid`/inactive subscription, performs
a Subscription write whose document has `is_active = true` while its
`status` is `'paid'`, not `'active'`. -/
theorem C1_counterexample_reconcile_write :
    ∃ d ∈ (reconcileHandler 5 stPaidFix "u1").1.subWrites,
      d.is_active = true ∧ d.status ≠ "active" := by decide



/-- C5: identity resolution uses the client-supplied reference whenever it
is present; otherwise it looks the user up by the processor-reported
customer email and creates a new identity keyed by that email only when
the lookup finds none; and when no user id resolves by either path, the
checkout event writes no Subscription yet is acknowledged
`200 {received:true}`. -/
theorem C5_identity_resolution_precedence :
    (∀ (w : World) (users : List UserRec) (nextId : Nat)
        (cr email : Option String), optTruthy cr = true →
      resolveUserId w users nextId cr email = (cr, users, nextId)) ∧
    (∀ (w : World) (users : List UserRec) (nextId : Nat)
        (cr email : Option String) (u0 : UserRec), optTruthy cr = false →
      optTruthy email = true →
      users.find? (fun u => u.email == email.getD "") = some u0 →
      resolveUserId w users nextId cr email = (some u0.id, users, nextId)) ∧
    (∀ (w : World) (users : List UserRec) (nextId : Nat)
        (cr email : Option String), optTruthy cr = false →
      optTruthy email = true →
      users.find? (fun u => u.email == email.getD "") = none →
      w.createUserOk = true →
      resolveUserId w users nextId cr email =
        (some (uniqueId nextId),
          users ++ [⟨uniqueId nextId, email.getD ""⟩], nextId + 1)) ∧
    (∀ (env : Env) (w : World) (now : Nat) (db : DB) (eid : String)
        (s : CheckoutSession),
      db.processed.any (fun r => r.event_id == eid) = false →
      ((resolveUserId w db.store.users db.store.nextId s.client_reference_id
          (w.customerEmail (s.customer.getD ""))).1 = none ∨
        (resolveUserId w db.store.users db.store.nextId s.client_reference_id
          (w.customerEmail (s.customer.getD ""))).1 = some "") →
      (handler env w none now db ⟨eid, .checkoutCompleted s⟩).2 = .received ∧
      (handler env w none now db
          ⟨eid, .checkoutCompleted s⟩).1.store.subscriptions
        = db.store.subscriptions ∧
      (handler env w none now db
          ⟨eid, .checkoutCompleted s⟩).1.store.subWrites
        = db.store.subWrites ∧
      (handler env w none now db
          ⟨eid, .checkoutCompleted s⟩).1.store.anomalies
        = db.store.anomalies) := by
  refine ⟨?_, ?_, ?_, ?_⟩
  · intro w users nextId cr email hcr
    simp [resolveUserId, hcr]
  · intro w users nextId cr email u0 hcr hem hfind
    simp [resolveUserId, hcr, hem, getUserIdByEmail, hfind]
  · intro w users nextId cr email hcr hem hfind hok
    simp [resolveUserId, hcr, hem, getUserIdByEmail, hfind, createUser, hok]
  · intro env w now db eid s hfresh hfail
    rw [handler_ok env w now db ⟨eid, .checkoutCompleted s⟩ hfresh]
    simp only [dispatchEvent]
    rw [handleCheckoutSessionCompleted]
    by_cases hdata : (optTruthy s.customer && optTruthy s.line_item_price_id
        && amtTruthy s.amount_total) = true
    · simp only [hdata, Bool.not_true, Bool.false_eq_true, if_false]
      rcases hres : resolveUserId w db.store.users db.store.nextId
          s.client_reference_id (w.customerEmail (s.customer.getD "")) with
        ⟨uopt, users2, nid2⟩
      rw [hres] at hfail
      cases uopt with
      | none => simp
      | some uid =>
        rcases hfail with hfail | hfail
        · exact absurd hfail (by simp)
        · have : uid = "" := by simpa using hfail
          simp [this]
    · simp only [Bool.not_eq_true] at hdata
      simp [hdata]

/-- Witness for C5: the four resolution modes at concrete inputs — an
explicit reference, an email lookup hit, an on-demand identity creation,
and an unresolvable event (no reference, no email). -/
theorem C5_identity_resolution_precedence_witness :
    resolveUserId wFix [] 0 (some "user_1") (some "a@example.com")
        = (some "user_1", [], 0) ∧
    resolveUserId wFix [⟨"u9", "b@x.com"⟩] 3 none (some "b@x.com")
        = (some "u9", [⟨"u9", "b@x.com"⟩], 3) ∧
    resolveUserId wFix [] 0 none (some "a@example.com")
        = (some "uid0", [⟨"uid0", "a@example.com"⟩], 1) ∧
    ((handler envFix wNoEmail none 100 dbEmpty
        ⟨"evt_5", .checkoutCompleted sessNoRefFix⟩).2 = .received ∧
      (handler envFix wNoEmail none 100 dbEmpty
          ⟨"evt_5", .checkoutCompleted sessNoRefFix⟩).1.store.subscriptions
        = dbEmpty.store.subscriptions ∧
      (handler envFix wNoEmail none 100 dbEmpty
          ⟨"evt_5", .checkoutCompleted sessNoRefFix⟩).1.store.subWrites
        = dbEmpty.store.subWrites ∧
      (handler envFix wNoEmail none 100 dbEmpty
          ⟨"evt_5", .checkoutCompleted sessNoRefFix⟩).1.store.anomalies
        = dbEmpty.store.anomalies) :=
  ⟨C5_identity_resolution_precedence.1 wFix [] 0 (some "user_1")
      (some "a@example.com") (by decide),
    C5_identity_resolution_precedence.2.1 wFix [⟨"u9", "b@x.com"⟩] 3 none
      (some "b@x.com") ⟨"u9", "b@x.com"⟩ (by decide) (by decide) (by decide),
    C5_identity_resolution_precedence.2.2.1 wFix [] 0 none
      (some "a@example.com") (by decide) (by decide) (by decide) (by decide),
    C5_identity_resolution_precedence.2.2.2 envFix wNoEmail 100 dbEmpty
      "evt_5" sessNoRefFix (by decide) (Or.inl (by decide))⟩

/-- The interval resolved by the price switch is always `monthly` or
`yearly`. -/
theorem determineInterval_cases (env : Env) (pid mode : String) :
    (determineInterval env pid mode).1 = "monthly" ∨
    (determineInterval env pid mode).1 = "yearly" := by
  unfold determineInterval
  split_ifs <;> simp

/-- When the price id matches neither configured price, the switch takes
the default arm: interval from the session mode, unknown flag set. -/
theorem determineInterval_unknown (env : Env) (pid mode : String)
    (hm : env.monthlyPriceId ≠ some pid) (hy : env.yearlyPriceId ≠ some pid) :
    determineInterval env pid mode =
      ((if mode == "subscription" then "monthly" else "yearly"), true) := by
  simp [determineInterval, hm, hy]

/-- C2: for a checkout event that reaches the subscription write, the
persisted amount is the canonical configured price for the resolved
interval, never the received `amount_total`; and whenever `amount_total`
differs from the canonical amount, a `price_mismatch` anomaly is written
whose `difference_cents` is `amount_total` minus the canonical amount. -/
theorem C2_canonical_amount_persisted (env : Env) (w : World) (now : Nat)
    (db : DB) (eid : String) (s : CheckoutSession) (uid : String)
    (users2 : List UserRec) (nid2 : Nat)
    (hfresh : db.processed.any (fun r => r.event_id == eid) = false)
    (hdata : (optTruthy s.customer && optTruthy s.line_item_price_id
        && amtTruthy s.amount_total) = true)
    (hres : resolveUserId w db.store.users db.store.nextId
        s.client_reference_id (w.customerEmail (s.customer.getD ""))
        = (some uid, users2, nid2))
    (huid : uid ≠ "")
    (hlog : db.store.subWrites = []) :
    ∃ nd : Subscription,
      (handler env w none now db
          ⟨eid, .checkoutCompleted s⟩).1.store.subWrites = [nd] ∧
      nd.interval = (determineInterval env
          (s.line_item_price_id.getD "") s.mode).1 ∧
      nd.amount = CORRECT_PRICES nd.interval ∧
      (nd.interval = "monthly" → nd.amount = 2900) ∧
      (nd.interval = "yearly" → nd.amount = 29900) ∧
      (s.amount_total.getD 0 ≠ CORRECT_PRICES nd.interval →
        nd.amount ≠ s.amount_total.getD 0 ∧
        (⟨eid, "price_mismatch", some (CORRECT_PRICES nd.interval),
            some (s.amount_total.getD 0),
            .priceMismatch nd.interval s.id (s.line_item_price_id.getD "")
              (s.customer.getD "")
              (s.amount_total.getD 0 - CORRECT_PRICES nd.interval)
              now⟩ : Anomaly)
          ∈ (handler env w none now db
              ⟨eid, .checkoutCompleted s⟩).1.store.anomalies) := by
  rw [handler_ok env w now db ⟨eid, .checkoutCompleted s⟩ hfresh]
  simp only [dispatchEvent]
  rw [checkout_reaches env w now db.store eid s uid users2 nid2 hdata hres huid]
  rcases completeCheckout_spec env w now
      {db.store with users := users2, nextId := nid2} eid s uid
      (s.customer.getD "") (s.line_item_price_id.getD "")
      (s.amount_total.getD 0) (w.customerEmail (s.customer.getD "")) with
    ⟨nd, hw, _, hanoms, _, _, _, _, hamount, hinterval, _, _, _, _, _⟩
  refine ⟨nd, ?_, ?_, ?_, ?_, ?_, ?_⟩
  · rw [hw]
    simp [hlog]
  · exact hinterval
  · rw [hamount, hinterval]
  · intro hmo
    rw [hinterval] at hmo
    rw [hamount, hmo]
    decide
  · intro hye
    rw [hinterval] at hye
    rw [hamount, hye]
    decide
  · intro hne
    rw [hinterval] at hne
    constructor
    · rw [hamount]
      exact fun hc => hne hc.symm
    · rw [hanoms]
      have hbeq : (s.amount_total.getD 0 ==
          CORRECT_PRICES (determineInterval env
            (s.line_item_price_id.getD "") s.mode).1) = false := by
        simpa using hne
      rw [hbeq]
      rw [hinterval]
      simp


/-- Witness for C2: the mismatch session persists the yearly canonical
amount 29900 (not the received 2900) and records the anomaly with
`difference_cents = 2900 - 29900`. -/
theorem C2_canonical_amount_persisted_witness :
    ∃ nd : Subscription,
      (handler envFix wFix none 100 dbEmpty
          ⟨"evt_2", .checkoutCompleted sessMismatchFix⟩).1.store.subWrites
        = [nd] ∧
      nd.interval = (determineInterval envFix
          (sessMismatchFix.line_item_price_id.getD "")
          sessMismatchFix.mode).1 ∧
      nd.amount = CORRECT_PRICES nd.interval ∧
      (nd.interval = "monthly" → nd.amount = 2900) ∧
      (nd.interval = "yearly" → nd.amount = 29900) ∧
      (sessMismatchFix.amount_total.getD 0 ≠ CORRECT_PRICES nd.interval →
        nd.amount ≠ sessMismatchFix.amount_total.getD 0 ∧
        (⟨"evt_2", "price_mismatch", some (CORRECT_PRICES nd.interval),
            some (sessMismatchFix.amount_total.getD 0),
            .priceMismatch nd.interval sessMismatchFix.id
              (sessMismatchFix.line_item_price_id.getD "")
              (sessMismatchFix.customer.getD "")
              (sessMismatchFix.amount_total.getD 0 -
                CORRECT_PRICES nd.interval) 100⟩ : Anomaly)
          ∈ (handler envFix wFix none 100 dbEmpty
              ⟨"evt_2", .checkoutCompleted
                sessMismatchFix⟩).1.store.anomalies) :=
  C2_canonical_amount_persisted envFix wFix 100 dbEmpty "evt_2"
    sessMismatchFix "user_1" [] 0 (by decide) (by decide) (by decide)
    (by decide) rfl

/-- C4: for a checkout event that resolves a user, exactly one
subscription document is written: in place of the existing document with
that `user_id` when one exists, appended as a single new document
otherwise; either way the write sets `status = 'active'`,
`is_active = true`, `current_period_start = now`, and
`current_period_end = now + 30` days for a monthly interval or
`now + 365` days for a yearly one. -/
theorem C4_checkout_upsert (env : Env) (w : World) (now : Nat)
    (db : DB) (eid : String) (s : CheckoutSession) (uid : String)
    (users2 : List UserRec) (nid2 : Nat)
    (hfresh : db.processed.any (fun r => r.event_id == eid) = false)
    (hdata : (optTruthy s.customer && optTruthy s.line_item_price_id
        && amtTruthy s.amount_total) = true)
    (hres : resolveUserId w db.store.users db.store.nextId
        s.client_reference_id (w.customerEmail (s.customer.getD ""))
        = (some uid, users2, nid2))
    (huid : uid ≠ "")
    (hlog : db.store.subWrites = []) :
    ∃ nd : Subscription,
      (handler env w none now db
          ⟨eid, .checkoutCompleted s⟩).1.store.subWrites = [nd] ∧
      nd.user_id = uid ∧
      nd.status = "active" ∧
      nd.is_active = true ∧
      nd.current_period_start = now ∧
      (nd.interval = "monthly" ∨ nd.interval = "yearly") ∧
      (nd.interval = "monthly" →
        nd.current_period_end = now + 30 * 24 * 60 * 60 * 1000) ∧
      (nd.interval = "yearly" →
        nd.current_period_end = now + 365 * 24 * 60 * 60 * 1000) ∧
      (∀ d0, db.store.subscriptions.find? (fun d => d.user_id == uid)
          = some d0 →
        nd.docId = d0.docId ∧
        (handler env w none now db
            ⟨eid, .checkoutCompleted s⟩).1.store.subscriptions
          = db.store.subscriptions.map
              (fun d => if d.docId == d0.docId then nd else d)) ∧
      (db.store.subscriptions.find? (fun d => d.user_id == uid) = none →
        (handler env w none now db
            ⟨eid, .checkoutCompleted s⟩).1.store.subscriptions
          = db.store.subscriptions ++ [nd]) := by
  rw [handler_ok env w now db ⟨eid, .checkoutCompleted s⟩ hfresh]
  simp only [dispatchEvent]
  rw [checkout_reaches env w now db.store eid s uid users2 nid2 hdata hres huid]
  rcases completeCheckout_spec env w now
      {db.store with users := users2, nextId := nid2} eid s uid
      (s.customer.getD "") (s.line_item_price_id.getD "")
      (s.amount_total.getD 0) (w.customerEmail (s.customer.getD "")) with
    ⟨nd, hw, _, _, huser, _, hstat, hact, _, hinterval, _, hstart, hend,
      hupd, hnew⟩
  refine ⟨nd, ?_, huser, hstat, hact, hstart, ?_, ?_, ?_, ?_, ?_⟩
  · rw [hw]
    simp [hlog]
  · rw [hinterval]
    exact determineInterval_cases env (s.line_item_price_id.getD "") s.mode
  · intro hmo
    rw [hinterval] at hmo
    rw [hend, hmo]
    simp
  · intro hye
    rw [hinterval] at hye
    rw [hend, hye]
    simp
  · intro d0 hfind
    exact hupd d0 (by simpa using hfind)
  · intro hfind
    exact hnew (by simpa using hfind)

/-- Witness for C4: the fixture checkout on the empty database creates
exactly one new subscription document. -/
theorem C4_checkout_upsert_witness :
    ∃ nd : Subscription,
      (handler envFix wFix none 100 dbEmpty
          ⟨"evt_1", .checkoutCompleted sessFix⟩).1.store.subWrites = [nd] ∧
      nd.user_id = "user_1" ∧
      nd.status = "active" ∧
      nd.is_active = true ∧
      nd.current_period_start = 100 ∧
      (nd.interval = "monthly" ∨ nd.interval = "yearly") ∧
      (nd.interval = "monthly" →
        nd.current_period_end = 100 + 30 * 24 * 60 * 60 * 1000) ∧
      (nd.interval = "yearly" →
        nd.current_period_end = 100 + 365 * 24 * 60 * 60 * 1000) ∧
      (∀ d0, dbEmpty.store.subscriptions.find?
          (fun d => d.user_id == "user_1") = some d0 →
        nd.docId = d0.docId ∧
        (handler envFix wFix none 100 dbEmpty
            ⟨"evt_1", .checkoutCompleted sessFix⟩).1.store.subscriptions
          = dbEmpty.store.subscriptions.map
              (fun d => if d.docId == d0.docId then nd else d)) ∧
      (dbEmpty.store.subscriptions.find? (fun d => d.user_id == "user_1")
          = none →
        (handler envFix wFix none 100 dbEmpty
            ⟨"evt_1", .checkoutCompleted sessFix⟩).1.store.subscriptions
          = dbEmpty.store.subscriptions ++ [nd]) :=
  C4_checkout_upsert envFix wFix 100 dbEmpty "evt_1" sessFix "user_1" [] 0
    (by decide) (by decide) (by decide) (by decide) rfl

/-- C6: a checkout event whose price id matches neither configured price
does not throw: the event is acknowledged `received`, an
`unknown_price_id` anomaly is recorded, and the interval is resolved from
the session mode — `monthly` when `mode = 'subscription'`, `yearly`
otherwise. -/
theorem C6_unknown_price_id_fallback (env : Env) (w : World) (now : Nat)
    (db : DB) (eid : String) (s : CheckoutSession) (uid : String)
    (users2 : List UserRec) (nid2 : Nat)
    (hfresh : db.processed.any (fun r => r.event_id == eid) = false)
    (hdata : (optTruthy s.customer && optTruthy s.line_item_price_id
        && amtTruthy s.amount_total) = true)
    (hres : resolveUserId w db.store.users db.store.nextId
        s.client_reference_id (w.customerEmail (s.customer.getD ""))
        = (some uid, users2, nid2))
    (huid : uid ≠ "")
    (hlog : db.store.subWrites = [])
    (hm : env.monthlyPriceId ≠ some (s.line_item_price_id.getD ""))
    (hy : env.yearlyPriceId ≠ some (s.line_item_price_id.getD "")) :
    (handler env w none now db ⟨eid, .checkoutCompleted s⟩).2 = .received ∧
    (⟨eid, "unknown_price_id", none, none,
        .unknownPriceId (s.line_item_price_id.getD "") env.monthlyPriceId
          env.yearlyPriceId s.id s.mode (s.amount_total.getD 0) now⟩ : Anomaly)
      ∈ (handler env w none now db
          ⟨eid, .checkoutCompleted s⟩).1.store.anomalies ∧
    (∃ nd : Subscription,
      (handler env w none now db
          ⟨eid, .checkoutCompleted s⟩).1.store.subWrites = [nd] ∧
      nd.interval =
        (if s.mode == "subscription" then "monthly" else "yearly")) := by
  have hdet := determineInterval_unknown env (s.line_item_price_id.getD "")
    s.mode hm hy
  rw [handler_ok env w now db ⟨eid, .checkoutCompleted s⟩ hfresh]
  simp only [dispatchEvent]
  rw [checkout_reaches env w now db.store eid s uid users2 nid2 hdata hres huid]
  rcases completeCheckout_spec env w now
      {db.store with users := users2, nextId := nid2} eid s uid
      (s.customer.getD "") (s.line_item_price_id.getD "")
      (s.amount_total.getD 0) (w.customerEmail (s.customer.getD "")) with
    ⟨nd, hw, _, hanoms, _, _, _, _, _, hinterval, _, _, _, _, _⟩
  refine ⟨by trivial, ?_, nd, ?_, ?_⟩
  · rw [hanoms, hdet]
    simp
  · rw [hw]
    simp [hlog]
  · rw [hinterval, hdet]


/-- Witness for C6: the unknown-price session in `subscription` mode is
acknowledged, logs the anomaly, and resolves to a monthly interval. -/
theorem C6_unknown_price_id_fallback_witness :
    (handler envFix wFix none 100 dbEmpty
        ⟨"evt_3", .checkoutCompleted sessUnknownFix⟩).2 = .received ∧
    (⟨"evt_3", "unknown_price_id", none, none,
        .unknownPriceId (sessUnknownFix.line_item_price_id.getD "")
          envFix.monthlyPriceId envFix.yearlyPriceId sessUnknownFix.id
          sessUnknownFix.mode (sessUnknownFix.amount_total.getD 0)
          100⟩ : Anomaly)
      ∈ (handler envFix wFix none 100 dbEmpty
          ⟨"evt_3", .checkoutCompleted sessUnknownFix⟩).1.store.anomalies ∧
    (∃ nd : Subscription,
      (handler envFix wFix none 100 dbEmpty
          ⟨"evt_3", .checkoutCompleted sessUnknownFix⟩).1.store.subWrites
        = [nd] ∧
      nd.interval =
        (if sessUnknownFix.mode == "subscription" then "monthly"
         else "yearly")) :=
  C6_unknown_price_id_fallback envFix wFix 100 dbEmpty "evt_3" sessUnknownFix
    "user_1" [] 0 (by decide) (by decide) (by decide) (by decide) rfl
    (by decide) (by decide)

/-- Documents of a collection with unique doc ids that share a doc id are
equal. -/
theorem eq_of_docId_nodup {l : List Subscription}
    (hnd : (l.map (fun d => d.docId)).Nodup) {a b : Subscription}
    (ha : a ∈ l) (hb : b ∈ l) (h : a.docId = b.docId) : a = b :=
  List.inj_on_of_nodup_map hnd ha hb h

/-- `promoteSub` does not change the document id. -/
theorem promoteSub_docId (now : Nat) (sub : Subscription) :
    (promoteSub now sub).docId = sub.docId := rfl

/-- The activation loop of the reconciliation endpoint equals the
pointwise map that promotes a document exactly when its id is among the
ids of the processed list, provided the processed documents occur
unchanged in the current collection and ids are unique. -/
theorem reconcile_foldl_subscriptions (now : Nat) :
    ∀ (l cur : List Subscription) (acc : Store × Nat),
      acc.1.subscriptions = cur →
      (∀ sub ∈ l, ∀ d ∈ cur, d.docId = sub.docId → d = sub) →
      (l.map (fun d => d.docId)).Nodup →
      (l.foldl (reconcileStep now) acc).1.subscriptions
        = cur.map (fun d =>
            if (l.map (fun x => x.docId)).contains d.docId
            then promoteSub now d else d) := by
  intro l
  induction l with
  | nil =>
    intro cur acc hst _ _
    simpa using hst
  | cons s t ih =>
    intro cur acc hst hagree hnd
    rw [List.map_cons, List.nodup_cons] at hnd
    simp only [List.foldl_cons]
    have hstep : (reconcileStep now acc s).1.subscriptions
        = cur.map (fun d =>
            if d.docId == s.docId then promoteSub now s else d) := by
      simp [reconcileStep, hst]
    have hagree2 : ∀ sub ∈ t,
        ∀ d ∈ cur.map (fun d =>
            if d.docId == s.docId then promoteSub now s else d),
        d.docId = sub.docId → d = sub := by
      intro sub hsub d hd hid
      rcases List.mem_map.1 hd with ⟨d0, hd0, rfl⟩
      by_cases hc : (d0.docId == s.docId) = true
      · exfalso
        simp only [hc, if_true] at hid
        rw [promoteSub_docId] at hid
        exact hnd.1 (hid ▸ List.mem_map.2 ⟨sub, hsub, rfl⟩)
      · simp only [hc, if_false] at hid ⊢
        exact hagree sub (List.mem_cons_of_mem s hsub) d0 hd0 hid
    rw [ih (cur.map (fun d =>
          if d.docId == s.docId then promoteSub now s else d))
        (reconcileStep now acc s) hstep hagree2 hnd.2]
    rw [List.map_map]
    apply List.map_congr_left
    intro d hd
    simp only [Function.comp]
    have hcontains : ((t.map (fun x => x.docId)).contains s.docId) = false := by
      simpa using hnd.1
    by_cases hc : (d.docId == s.docId) = true
    · have heq : d.docId = s.docId := by simpa using hc
      have hds : d = s := hagree s (List.mem_cons_self s t) d hd heq
      subst hds
      simp only [hc, if_true, promoteSub_docId, List.contains_cons,
        List.map_cons]
      simp only [hcontains, Bool.false_eq_true, if_false]
      simp
    · simp only [Bool.not_eq_true] at hc
      rw [beq_eq_false_iff_ne] at hc
      simp [hc, List.contains_cons]

/-- C7: the reconciliation endpoint, called by `userId`, promotes exactly
the caller's subscriptions with `is_active = false` and `status = 'paid'`
(each such document is patched to `is_active = true`; every other document
is untouched), and the `activated` count of the response equals the
number of documents so promoted. -/
theorem C7_reconciliation_promotes_exactly_pending (now : Nat) (st : Store)
    (userId : String)
    (hnd : (st.subscriptions.map (fun d => d.docId)).Nodup) :
    (reconcileHandler now st userId).1.subscriptions
      = st.subscriptions.map (fun d =>
          if pendingFor userId d then promoteSub now d else d) ∧
    (reconcileHandler now st userId).2
      = (st.subscriptions.filter (pendingFor userId)).length := by
  constructor
  · unfold reconcileHandler
    rw [reconcile_foldl_subscriptions now
        (st.subscriptions.filter (pendingFor userId)) st.subscriptions
        (st, 0) rfl ?_ ?_]
    · apply List.map_congr_left
      intro d hd
      by_cases hp : pendingFor userId d = true
      · have hcon : ((st.subscriptions.filter (pendingFor userId)).map
            (fun x => x.docId)).contains d.docId = true := by
          simpa using List.mem_map.2 ⟨d, List.mem_filter.2 ⟨hd, hp⟩, rfl⟩
        simp [hcon, hp]
        intro hfalse
        exact absurd rfl (hfalse d hd hp)
      · have hcon : ((st.subscriptions.filter (pendingFor userId)).map
            (fun x => x.docId)).contains d.docId = false := by
          rw [Bool.eq_false_iff]
          intro hx
          rcases List.mem_map.1 (List.elem_iff.1 hx) with ⟨e, he, heid⟩
          have hef := List.mem_filter.1 he
          have hed : e = d := eq_of_docId_nodup hnd hef.1 hd heid
          rw [hed] at hef
          exact hp hef.2
        simp [hcon, hp]
        intro x hx hpx hxd
        exact absurd (eq_of_docId_nodup hnd hx hd hxd ▸ hpx) hp
    · intro sub hsub d hd hid
      exact eq_of_docId_nodup hnd hd (List.mem_of_mem_filter hsub) hid
    · exact List.Nodup.sublist ((List.filter_sublist _).map _) hnd
  · unfold reconcileHandler
    rw [reconcile_foldl_count]
    simp

/-- Witness for C7 at the concrete `paid`/inactive store. -/
theorem C7_reconciliation_promotes_exactly_pending_witness :
    (reconcileHandler 5 stPaidFix "u1").1.subscriptions
      = stPaidFix.subscriptions.map (fun d =>
          if pendingFor "u1" d then promoteSub 5 d else d) ∧
    (reconcileHandler 5 stPaidFix "u1").2
      = (stPaidFix.subscriptions.filter (pendingFor "u1")).length :=
  C7_reconciliation_promotes_exactly_pending 5 stPaidFix "u1" (by decide)


/-- `find?` after a single-document patch: when `q` first finds `d0` in a
collection with unique doc ids, replacing the document with `d0`'s id by a
new document `nd` that still satisfies `q` makes `find?` return `nd`. -/
theorem find?_after_targeted_map (l : List Subscription)
    (d0 nd : Subscription) (q : Subscription → Bool)
    (hnd : (l.map (fun d => d.docId)).Nodup)
    (hfind : l.find? q = some d0)
    (hid : nd.docId = d0.docId) (hq : q nd = true) :
    (l.map (fun d => if d.docId == d0.docId then nd else d)).find? q
      = some nd := by
  induction l with
  | nil => simp at hfind
  | cons a t ih =>
    rw [List.map_cons, List.nodup_cons] at hnd
    by_cases hqa : q a = true
    · rw [List.find?_cons_of_pos _ hqa] at hfind
      injection hfind with h0
      subst h0
      simp only [List.map_cons, beq_self_eq_true, if_true]
      exact List.find?_cons_of_pos _ hq
    · rw [List.find?_cons_of_neg _ hqa] at hfind
      have hd0t : d0 ∈ t := List.mem_of_find?_eq_some hfind
      have hne : (a.docId == d0.docId) = false := by
        rw [Bool.eq_false_iff]
        intro hx
        rw [beq_iff_eq] at hx
        exact hnd.1 (hx ▸ List.mem_map.2 ⟨d0, hd0t, rfl⟩)
      simp only [List.map_cons, hne, Bool.false_eq_true, if_false]
      rw [List.find?_cons_of_neg _ hqa]
      exact ih hnd.2 hfind

/-- C8: delivering `customer.subscription.deleted` twice for the same
`stripe_subscription_id` under distinct event ids leaves the matched
subscription at `status = 'canceled'`, `is_active = false` after either
delivery; the second delivery reproduces exactly the same subscription
collection, and both deliveries are acknowledged. -/
theorem C8_cancellation_idempotent (env env2 : Env) (w w2 : World)
    (now1 now2 : Nat) (db : DB) (id1 id2 : String)
    (sub : StripeSubscription) (d0 : Subscription)
    (h1 : db.processed.any (fun r => r.event_id == id1) = false)
    (h2 : db.processed.any (fun r => r.event_id == id2) = false)
    (hids : id1 ≠ id2)
    (hnd : (db.store.subscriptions.map (fun d => d.docId)).Nodup)
    (hfind : db.store.subscriptions.find?
        (fun d => d.stripe_subscription_id == sub.id) = some d0) :
    (handler env w none now1 db
        ⟨id1, .subscriptionDeleted sub⟩).1.store.subscriptions
      = db.store.subscriptions.map
          (fun d => if d.docId == d0.docId then cancelSub d0 else d) ∧
    cancelSub d0 ∈ (handler env w none now1 db
        ⟨id1, .subscriptionDeleted sub⟩).1.store.subscriptions ∧
    (cancelSub d0).status = "canceled" ∧
    (cancelSub d0).is_active = false ∧
    (handler env2 w2 none now2
        (handler env w none now1 db ⟨id1, .subscriptionDeleted sub⟩).1
        ⟨id2, .subscriptionDeleted sub⟩).1.store.subscriptions
      = (handler env w none now1 db
          ⟨id1, .subscriptionDeleted sub⟩).1.store.subscriptions ∧
    (handler env w none now1 db ⟨id1, .subscriptionDeleted sub⟩).2
      = .received ∧
    (handler env2 w2 none now2
        (handler env w none now1 db ⟨id1, .subscriptionDeleted sub⟩).1
        ⟨id2, .subscriptionDeleted sub⟩).2 = .received := by
  have hq0 := List.find?_some hfind
  rw [handler_ok env w now1 db ⟨id1, .subscriptionDeleted sub⟩ h1]
  simp only [dispatchEvent]
  have hdisp1 : handleSubscriptionDeleted db.store sub
      = {db.store with
          subscriptions := db.store.subscriptions.map
            (fun d => if d.docId == d0.docId then cancelSub d0 else d),
          subWrites := db.store.subWrites ++ [cancelSub d0]} := by
    simp only [handleSubscriptionDeleted, hfind]
    rfl
  rw [hdisp1]
  have h2' : (db.processed ++
      [(⟨id1, eventType (EventData.subscriptionDeleted sub),
        now1⟩ : ProcessedEvent)]).any
        (fun r => r.event_id == id2) = false := by
    rw [List.any_append, h2]
    simpa using hids
  rw [handler_ok env2 w2 now2 _ ⟨id2, .subscriptionDeleted sub⟩ h2']
  simp only [dispatchEvent]
  have hfind2 : (db.store.subscriptions.map
      (fun d => if d.docId == d0.docId then cancelSub d0 else d)).find?
        (fun d => d.stripe_subscription_id == sub.id) = some (cancelSub d0) :=
    find?_after_targeted_map db.store.subscriptions d0 (cancelSub d0) _ hnd
      hfind rfl hq0
  have hdisp2 : handleSubscriptionDeleted
      {db.store with
        subscriptions := db.store.subscriptions.map
          (fun d => if d.docId == d0.docId then cancelSub d0 else d),
        subWrites := db.store.subWrites ++ [cancelSub d0]} sub
      = {db.store with
          subscriptions := (db.store.subscriptions.map
            (fun d => if d.docId == d0.docId then cancelSub d0 else d)).map
              (fun d => if d.docId == (cancelSub d0).docId
                then cancelSub (cancelSub d0) else d),
          subWrites := (db.store.subWrites ++ [cancelSub d0])
            ++ [cancelSub (cancelSub d0)]} := by
    simp only [handleSubscriptionDeleted, hfind2]
    rfl
  rw [hdisp2]
  have hmapfix : (db.store.subscriptions.map
      (fun d => if d.docId == d0.docId then cancelSub d0 else d)).map
        (fun d => if d.docId == (cancelSub d0).docId
          then cancelSub (cancelSub d0) else d)
      = db.store.subscriptions.map
          (fun d => if d.docId == d0.docId then cancelSub d0 else d) := by
    rw [List.map_map]
    apply List.map_congr_left
    intro d _
    simp only [Function.comp]
    by_cases hc : (d.docId == d0.docId) = true
    · simp [hc, cancelSub]
    · simp only [hc, Bool.false_eq_true, if_false]
      simp only [cancelSub]
      simp [hc]
  refine ⟨by trivial, ?_, by trivial, by trivial, ?_, by trivial, by trivial⟩
  · have hd0 : d0 ∈ db.store.subscriptions := List.mem_of_find?_eq_some hfind
    exact List.mem_map.2 ⟨d0, hd0, by simp⟩
  · exact hmapfix


/-- Witness for C8: the concrete cancellation delivered twice (event ids
`e1`, `e2`) against a store holding one active subscription on `subX`. -/
theorem C8_cancellation_idempotent_witness :
    (handler envFix wFix none 6 ⟨[], stActiveFix⟩
        ⟨"e1", .subscriptionDeleted stripeSubFix⟩).1.store.subscriptions
      = (⟨[], stActiveFix⟩ : DB).store.subscriptions.map
          (fun d => if d.docId == subActiveFix.docId
            then cancelSub subActiveFix else d) ∧
    cancelSub subActiveFix ∈ (handler envFix wFix none 6 ⟨[], stActiveFix⟩
        ⟨"e1", .subscriptionDeleted stripeSubFix⟩).1.store.subscriptions ∧
    (cancelSub subActiveFix).status = "canceled" ∧
    (cancelSub subActiveFix).is_active = false ∧
    (handler envFix wFix none 7
        (handler envFix wFix none 6 ⟨[], stActiveFix⟩
          ⟨"e1", .subscriptionDeleted stripeSubFix⟩).1
        ⟨"e2", .subscriptionDeleted stripeSubFix⟩).1.store.subscriptions
      = (handler envFix wFix none 6 ⟨[], stActiveFix⟩
          ⟨"e1", .subscriptionDeleted stripeSubFix⟩).1.store.subscriptions ∧
    (handler envFix wFix none 6 ⟨[], stActiveFix⟩
        ⟨"e1", .subscriptionDeleted stripeSubFix⟩).2 = .received ∧
    (handler envFix wFix none 7
        (handler envFix wFix none 6 ⟨[], stActiveFix⟩
          ⟨"e1", .subscriptionDeleted stripeSubFix⟩).1
        ⟨"e2", .subscriptionDeleted stripeSubFix⟩).2 = .received :=
  C8_cancellation_idempotent envFix envFix wFix wFix 6 7 ⟨[], stActiveFix⟩
    "e1" "e2" stripeSubFix subActiveFix (by decide) (by decide) (by decide)
    (by decide) (by decide)
